import Mathlib

/-!
# glsl-editor: the shader hot-reload pipeline of `src/src/main.c`

A shallow embedding of `load_file`, `compile_shader`,
`load_fragment_file_to_program`, `shader_uniform_location`,
`shader_uniforms_locate`, the option loop of `main` and the frame loop of
`main`.

Conventions of the embedding.

* C `int`, `GLint`, `clock_t` are `Int`; `GLuint` handles are `Nat`; `u32`
  values are taken modulo `2 ^ 32` where the source narrows to `u32`.
* The outside world (file system, GL driver, GLFW, `clock`) is passed in as
  explicit answers; the calls of the reload pipeline, the uniform updates and
  the draw call are recorded, in program order, in a list of `Call`.
* A call that does not return (the process is killed inside it) yields `none`
  for its result; the calls issued up to that point are still recorded.
* The `float` computation of `last_reload_ms` is followed bit for bit:
  24-bit significands, rounding to nearest with ties to even, truncation
  toward zero on conversion to `int`. The `float` and `double` expressions
  that feed the uniforms are evaluated exactly, in `ℚ`.
-/

namespace GlslEditor

/-! ## Constants of the headers -/

/-- The constant `GL_FALSE`. -/
def GL_FALSE : Int := 0

/-- The constant `GLFW_PRESS`. -/
def GLFW_PRESS : Int := 1

/-- The constant `EXIT_FAILURE`. -/
def EXIT_FAILURE : Int := 1

/-! ## Recorded calls -/

/-- The two output streams used by the program. -/
inductive Stream
  | stdout
  | stderr
  deriving DecidableEq, Repr

/-- One recorded call. The `enter_*` and `leave_*` constructors mark the call
sites of the two reload functions in `main`, with the verbosity passed and
the value returned. -/
inductive Call
  | perror (text : String)
  | fprintf (stream : Stream) (text : String)
  | glShaderSource (shader : Nat) (source : List Nat) (size : Nat)
  | glCompileShader (shader : Nat)
  | glGetShaderiv_COMPILE_STATUS (shader : Nat)
  | glGetShaderInfoLog (shader : Nat)
  | glAttachShader (program shader : Nat)
  | glLinkProgram (program : Nat)
  | glGetProgramiv_LINK_STATUS (program : Nat)
  | glGetProgramiv_INFO_LOG_LENGTH (program : Nat)
  | glGetProgramInfoLog (program : Nat)
  | glDetachShader (program shader : Nat)
  | glGetUniformLocation (program : Nat) (name : String)
  | glUseProgram (program : Nat)
  | glUniform2f (location : Int) (x y : ℚ)
  | glUniform1f (location : Int) (x : ℚ)
  | glDrawArrays
  | enter_load_fragment_file_to_program (filename : String) (verbose : Int)
  | leave_load_fragment_file_to_program (result : Int)
  | enter_shader_uniforms_locate (program : Nat) (verbose : Int)
  deriving DecidableEq, Repr

/-- The calls that change a program object: attaching or detaching a stage
and linking. The `glGetProgram*` calls only read it. -/
def Call.changesProgram : Call → Bool
  | .glAttachShader _ _ => true
  | .glLinkProgram _ => true
  | .glDetachShader _ _ => true
  | _ => false

/-- The marker of a call of `load_fragment_file_to_program`. -/
def Call.isLoadEnter : Call → Bool
  | .enter_load_fragment_file_to_program _ _ => true
  | _ => false

/-- The marker of a return from `load_fragment_file_to_program`. -/
def Call.isLoadLeave : Call → Bool
  | .leave_load_fragment_file_to_program _ => true
  | _ => false

/-- The marker of a call of `shader_uniforms_locate`. -/
def Call.isLocateEnter : Call → Bool
  | .enter_shader_uniforms_locate _ _ => true
  | _ => false

/-- The three markers together. -/
def Call.isMarker : Call → Bool
  | .enter_load_fragment_file_to_program _ _ => true
  | .leave_load_fragment_file_to_program _ => true
  | .enter_shader_uniforms_locate _ _ => true
  | _ => false

/-- Whether `shader` is attached to `program` after the calls, given whether
it was attached before them. -/
def stage_attached (program shader : Nat) : Bool → List Call → Bool
  | b, [] => b
  | b, .glAttachShader p sh :: rest =>
    stage_attached program shader (if p = program ∧ sh = shader then true else b) rest
  | b, .glDetachShader p sh :: rest =>
    stage_attached program shader (if p = program ∧ sh = shader then false else b) rest
  | b, _ :: rest => stage_attached program shader b rest

/-- The number of calls of `load_fragment_file_to_program` in a trace. -/
def load_attempts (tr : List Call) : Nat := (tr.filter Call.isLoadEnter).length

/-- The number of calls of `shader_uniforms_locate` in a trace. -/
def locate_calls (tr : List Call) : Nat := (tr.filter Call.isLocateEnter).length

/-- The value returned by the last call of `load_fragment_file_to_program`
in a trace, if there is one. -/
def last_load_result : List Call → Option Int
  | [] => none
  | .leave_load_fragment_file_to_program r :: rest =>
    match last_load_result rest with
    | some r1 => some r1
    | none => some r
  | _ :: rest => last_load_result rest

/-! ## The outside world -/

/-- What the C library answers for one file: whether `fopen` succeeds, the
offset `ftell` reports at the end, whether `malloc` succeeds, and the bytes
`fread` delivers. -/
structure FileAnswers where
  fopen_ok : Bool
  ftell : Nat
  malloc_ok : Bool
  fread : List Nat
  deriving Repr

/-- The file system: the answers for each file name. -/
abbrev FileSystem := String → FileAnswers

/-- What the GL driver answers during one reload attempt. -/
structure GLAnswers where
  compile_status : Int
  shader_log : String
  link_status : Int
  program_log : String
  uniform_location : String → Int

/-! ## `load_file` -/

/-- Embedding of `load_file`: what the call returns and the calls it issues.
The result is `none` when the call does not return: after a failed `fopen`
the code jumps to `error:` past the initialisation of `buffer` and applies
`free` to the uninitialised pointer, which kills the process. Otherwise the
result is the returned buffer (`none` for `NULL`, after a failed `malloc` or
a short `fread`) and the value stored in `*size`. -/
def load_file (fs : FileSystem) (filename : String) :
    Option (Option (List Nat) × Nat) × List Call :=
  let a := fs filename
  if !a.fopen_ok then
    (none, [Call.perror "Could not open file"])
  else
    let s := a.ftell % 2 ^ 32
    if !a.malloc_ok then
      (some (none, 0), [Call.perror "could not allocate memory"])
    else
      let read := a.fread.length % 2 ^ 32
      if read != s then
        (some (none, 0), [Call.perror "could not read file"])
      else
        (some (some a.fread, s), [])

/-! ## `compile_shader` -/

/-- Embedding of `compile_shader`. -/
def compile_shader (gl : GLAnswers) (shader : Nat) (source : List Nat)
    (size : Nat) (verbose : Int) : Int × List Call :=
  let calls := [Call.glShaderSource shader source size,
                Call.glCompileShader shader,
                Call.glGetShaderiv_COMPILE_STATUS shader]
  if gl.compile_status = GL_FALSE then
    let calls := calls ++ [Call.glGetShaderInfoLog shader]
    let calls := if verbose ≠ 0 then
        calls ++ [Call.fprintf Stream.stderr (gl.shader_log ++ " \n")]
      else calls
    (-1, calls)
  else
    (0, calls)

/-! ## `load_fragment_file_to_program` -/

/-- Embedding of `load_fragment_file_to_program`: the returned `int`
(`none` when the process is killed inside `load_file`) and the calls
issued. -/
def load_fragment_file_to_program (fs : FileSystem) (gl : GLAnswers)
    (filename : String) (program shader : Nat) (verbose : Int) :
    Option Int × List Call :=
  let result : Int := 1
  match load_file fs filename with
  | (none, c0) => (none, c0)
  | (some (some buffer, size), c0) =>
    let (compiled, c1) := compile_shader gl shader buffer size verbose
    if compiled < 0 then
      let c2 := if verbose ≠ 0 then
          [Call.fprintf Stream.stderr "could not compile shader file.\n"]
        else []
      (some (-1), c0 ++ c1 ++ c2)
    else
      let c2 := [Call.glAttachShader program shader,
                 Call.glLinkProgram program,
                 Call.glGetProgramiv_LINK_STATUS program]
      if gl.link_status = GL_FALSE then
        let c3 := if verbose ≠ 0 then
            [Call.fprintf Stream.stderr "could not link shader program.\n"]
          else []
        let c4 := [Call.glGetProgramiv_INFO_LOG_LENGTH program,
                   Call.glGetProgramInfoLog program]
        let c5 := if verbose ≠ 0 then
            [Call.fprintf Stream.stderr (gl.program_log ++ " \n")]
          else []
        (some (-1), c0 ++ c1 ++ c2 ++ c3 ++ c4 ++ c5 ++
          [Call.glDetachShader program shader])
      else
        (some result, c0 ++ c1 ++ c2 ++ [Call.glDetachShader program shader])
  | (some (none, _), c0) =>
    (some result,
      c0 ++ [Call.fprintf Stream.stderr "could not load shader file.\n"])

/-! ## Uniform locations -/

/-- Embedding of `shader_uniform_location`. -/
def shader_uniform_location (gl : GLAnswers) (program : Nat) (name : String)
    (verbose : Int) : Int × List Call :=
  let location := gl.uniform_location name
  let c := [Call.glGetUniformLocation program name]
  if location < 0 ∧ verbose ≠ 0 then
    (location, c ++ [Call.fprintf Stream.stdout
      ("Could not get \"" ++ name ++ "\" uniform location.\n")])
  else
    (location, c)

/-- The `struct shader_uniforms`. -/
structure shader_uniforms where
  resolution : Int
  mouse : Int
  scroll : Int
  time : Int
  deriving DecidableEq, Repr

/-- Embedding of `shader_uniforms_locate`: the returned `int`, the updated
struct and the calls. -/
def shader_uniforms_locate (gl : GLAnswers) (program : Nat)
    (uniforms : shader_uniforms) (verbose : Int) :
    Int × shader_uniforms × List Call :=
  let result : Int := 0
  let (r, c1) := shader_uniform_location gl program "resolution" verbose
  let (m, c2) := shader_uniform_location gl program "mouse" verbose
  let (t, c3) := shader_uniform_location gl program "time" verbose
  (result, { uniforms with resolution := r, mouse := m, time := t },
    c1 ++ c2 ++ c3)

/-! ## Option parsing in `main` -/

/-- One answer of `getopt(argc, argv, "fvt:w:h:i:")` other than `-1`: the
option character returned and the value of `optarg`. -/
structure GetoptResult where
  c : Char
  optarg : Option String
  deriving DecidableEq, Repr

/-- The locals of `main` that the option loop sets. -/
structure Options where
  fullscreen : Int
  verbose : Int
  width : Int
  height : Int
  reload_interval_ms : Int
  filename : Option String
  arg_error : Int
  deriving DecidableEq, Repr

/-- The initial values of the locals. -/
def Options.initial : Options :=
  { fullscreen := 0, verbose := 0, width := 640, height := 480,
    reload_interval_ms := 1000, filename := none, arg_error := 0 }

/-- The body of the `switch(c)` in `main`. There are cases for
`'f'`, `'t'`, `'w'`, `'h'`, `'i'` and `'?'`; every other character, and so
`'v'`, reaches `default`. The libc function `atoi` is a parameter. -/
def option_switch (atoi : String → Int) (o : Options) (g : GetoptResult) :
    Options :=
  if g.c = 'f' then
    { o with fullscreen := 1 }
  else if g.c = 't' then
    match g.optarg with
    | some a =>
      let v := atoi a
      { o with reload_interval_ms := if v < 0 then 0 else v }
    | none => o
  else if g.c = 'w' then
    match g.optarg with
    | some a =>
      let v := atoi a
      { o with width := if v ≤ 0 then 1 else v }
    | none => o
  else if g.c = 'h' then
    match g.optarg with
    | some a =>
      let v := atoi a
      { o with height := if v ≤ 0 then 1 else v }
    | none => o
  else if g.c = 'i' then
    match g.optarg with
    | some a => { o with filename := some a }
    | none => o
  else if g.c = '?' then
    { o with arg_error := 1 }
  else
    { o with arg_error := 1 }

/-- The `while((c = getopt(...)) != -1)` loop, over the answers of `getopt`
in order. -/
def parse_options (atoi : String → Int) (gs : List GetoptResult) : Options :=
  gs.foldl (option_switch atoi) Options.initial

/-! ## The frame loop of `main` -/

/-- What stays fixed during the frame loop. -/
structure Config where
  verbose : Int
  reload_interval_ms : Int
  filename : String
  shader_program : Nat
  fragment_shader : Nat
  CLOCKS_PER_SEC : Int

/-- What the outside world supplies in one frame, in the order the frame
reads it: framebuffer size, cursor position, the three readings of `clock`
(for the time uniform, for the scheduler, after a reload attempt), the state
of the R key, and the file system and GL driver as the reload attempt of
this frame would find them. The field `undefined_int` is what the platform
leaves in an `int` that is converted from a `float` outside the range of
`int`, a conversion C leaves undefined. -/
structure FrameInput where
  width : Int
  height : Int
  mouse_x : ℚ
  mouse_y : ℚ
  clock_time : Int
  clock_sched : Int
  reload_key : Int
  fs : FileSystem
  gl : GLAnswers
  clock_after : Int
  undefined_int : Int

/-- The locals of `main` that live across frames. -/
structure LoopState where
  result : Int
  uniforms : shader_uniforms
  recently_reloaded : Int
  reload_timer : Int
  deriving DecidableEq, Repr

/-- The pair `(x, y)` computed from the cursor position:
`x = (mouse_x-(width/2.0f))/width`, `y = (mouse_y-(height/2.0f))/height`. -/
def mouse_xy (width height : Int) (mouse_x mouse_y : ℚ) : ℚ × ℚ :=
  ((mouse_x - ((width : ℚ) / 2)) / (width : ℚ),
   (mouse_y - ((height : ℚ) / 2)) / (height : ℚ))

/-- The number of binary digits of `n`, by halving at most `fuel` times. -/
def bit_length_aux : Nat → Nat → Nat
  | 0, _ => 0
  | fuel + 1, n => if n = 0 then 0 else bit_length_aux fuel (n / 2) + 1

/-- The number of binary digits of `n`. -/
def bit_length (n : Nat) : Nat := bit_length_aux n n

/-- The integer nearest to `num / den`, a tie going to the even one. -/
def round_half_even (num den : Nat) : Nat :=
  let q := num / den
  let r := num % den
  if den < 2 * r ∨ (2 * r = den ∧ q % 2 = 1) then q + 1 else q

/-- The magnitude of `(float)n` for an integer of magnitude `n`: `n` rounded
to 24 significant binary digits. -/
def float_of_nat (n : Nat) : Nat :=
  let shift := bit_length n - 24
  round_half_even n (2 ^ shift) * 2 ^ shift

/-- The `float` quotient of two positive `float` values `x` and `d` that are
integers: the significand `m` and the exponent `e` of the `float` nearest to
`x / d`, which is `m * 2 ^ e`. -/
def float_div (x d : Nat) : Nat × Int :=
  let k : Int := (bit_length x : Int) - (bit_length d : Int)
  let l : Int := if d * 2 ^ k.toNat ≤ x * 2 ^ (-k).toNat then k else k - 1
  let e : Int := l - 23
  (round_half_even (x * 2 ^ (-e).toNat) (d * 2 ^ e.toNat), e)

/-- The integer part of the `float` of significand `f.1` and exponent
`f.2`. -/
def float_to_nat (f : Nat × Int) : Nat :=
  f.1 * 2 ^ f.2.toNat / 2 ^ (-f.2).toNat

/-- The local `last_reload_ms`:
`(float)((clock() - reload_timer)/(float)(CLOCKS_PER_SEC/100000))` converted
to `int`. The tick difference and the integer quotient
`CLOCKS_PER_SEC/100000` are each converted to `float`, the `float` division
is rounded to `float`, and the conversion to `int` truncates toward zero.
When the divisor is zero, or the truncated quotient is outside the range of
a 32-bit `int`, the value is `undefined_int`. -/
def last_reload_ms (CLOCKS_PER_SEC now reload_timer undefined_int : Int) : Int :=
  let x := float_of_nat (now - reload_timer).natAbs
  let d := float_of_nat (Int.tdiv CLOCKS_PER_SEC 100000).natAbs
  if d = 0 then undefined_int
  else if x = 0 then 0
  else
    let t : Int := float_to_nat (float_div x d)
    let v : Int :=
      if (now - reload_timer < 0) = (Int.tdiv CLOCKS_PER_SEC 100000 < 0) then t
      else -t
    if -2 ^ 31 ≤ v ∧ v < 2 ^ 31 then v else undefined_int

/-- The timer part of the scheduler: the values of `reload` and
`reload_verbose` after `if(reload_interval_ms)`. -/
def timer_path (cfg : Config) (s : LoopState) (i : FrameInput) : Int × Int :=
  if cfg.reload_interval_ms ≠ 0 then
    if cfg.reload_interval_ms <
        last_reload_ms cfg.CLOCKS_PER_SEC i.clock_sched s.reload_timer
          i.undefined_int then
      (1, cfg.verbose)
    else (0, 0)
  else (0, 0)

/-- The scheduler of one frame: the values of `reload`, `reload_verbose` and
`recently_reloaded` before `if(reload)`, and the calls. -/
def schedule (cfg : Config) (s : LoopState) (i : FrameInput) :
    Int × Int × Int × List Call :=
  let (reload, reload_verbose) := timer_path cfg s i
  if i.reload_key = GLFW_PRESS then
    if s.recently_reloaded = 0 then
      (1, 1, 1, [Call.fprintf Stream.stdout "Reloading shader.\n"])
    else
      (reload, reload_verbose, s.recently_reloaded, [])
  else
    (reload, reload_verbose, 0, [])

/-- The `if(reload)` block of one frame, entered with `reload != 0`: the
locals after the block (`none` when the process is killed inside
`load_file`) and the calls. -/
def reload_block (cfg : Config) (s : LoopState) (i : FrameInput)
    (reload_verbose recently_reloaded : Int) : Option LoopState × List Call :=
  match load_fragment_file_to_program i.fs i.gl cfg.filename
    cfg.shader_program cfg.fragment_shader reload_verbose with
  | (none, c1) =>
    (none, [Call.enter_load_fragment_file_to_program cfg.filename
      reload_verbose] ++ c1)
  | (some result, c1) =>
    let c1 := [Call.enter_load_fragment_file_to_program cfg.filename
        reload_verbose] ++ c1 ++
      [Call.leave_load_fragment_file_to_program result]
    if result < 0 then
      (some { result := result, uniforms := s.uniforms,
              recently_reloaded := recently_reloaded,
              reload_timer := i.clock_after }, c1)
    else
      let (_, uniforms, c2) := shader_uniforms_locate i.gl cfg.shader_program
        s.uniforms reload_verbose
      (some { result := result, uniforms := uniforms,
              recently_reloaded := recently_reloaded,
              reload_timer := i.clock_after },
       c1 ++ [Call.enter_shader_uniforms_locate cfg.shader_program
         reload_verbose] ++ c2)

/-- One iteration of the `while(!glfwWindowShouldClose(window))` loop: the
locals after the frame (`none` when the process is killed in it) and the
calls. -/
def frame (cfg : Config) (s : LoopState) (i : FrameInput) :
    Option LoopState × List Call :=
  let (x, y) := mouse_xy i.width i.height i.mouse_x i.mouse_y
  let time : ℚ := (i.clock_time : ℚ) / (cfg.CLOCKS_PER_SEC : ℚ)
  let c0 := [Call.glUniform2f s.uniforms.resolution i.width i.height,
             Call.glUniform2f s.uniforms.mouse x y,
             Call.glUniform1f s.uniforms.time time,
             Call.glDrawArrays]
  let (reload, reload_verbose, recently_reloaded, c1) := schedule cfg s i
  if reload ≠ 0 then
    let (s1, c2) := reload_block cfg s i reload_verbose recently_reloaded
    (s1, c0 ++ c1 ++ c2)
  else
    (some { s with recently_reloaded := recently_reloaded }, c0 ++ c1)

/-- The frame loop over the frames shown until the window is closed; it
stops at a frame in which the process is killed. -/
def frames (cfg : Config) :
    LoopState → List FrameInput → Option LoopState × List Call
  | s, [] => (some s, [])
  | s, i :: rest =>
    match frame cfg s i with
    | (some s1, c1) =>
      let (s2, c2) := frames cfg s1 rest
      (s2, c1 ++ c2)
    | (none, c1) => (none, c1)

/-! ## `main` -/

/-- The bytes of `vertex_shader_source`, the terminating zero included. -/
def vertex_shader_source : List Nat :=
  (("#version 330 core\t\t\t\t\n" ++
    "layout(location = 0) in vec2 in_position; \t\n" ++
    "out vec2 texcoord;\t\t\t\t\n" ++
    "void main()\x7b\t\t\t\t\t\n" ++
    "\tgl_Position.xy = in_position;\t\t\n" ++
    "\tgl_Position.w = 1.0; \t\t\t\n" ++
    "\ttexcoord = (in_position+1.0)/2.0;\t\n" ++
    "\x7d\t\t\t\t\t\t\n").toList.map Char.toNat) ++ [0]

/-- What the outside world answers during start-up: `glfwInit`, whether
`glfwCreateWindow` gives a window, the value of the condition
`glew_init_res == glewInit()`, the handles GL creates, the driver while the
built-in vertex shader is compiled, the file system and driver at the first
load of the fragment shader, the value of `CLOCKS_PER_SEC` and the reading of
`clock` before the loop. The local `uniforms` is declared without an
initialiser; `uniforms` is what it holds then. -/
structure Startup where
  glfwInit : Int
  window : Bool
  glew_condition : Bool
  shader_program : Nat
  vertex_shader : Nat
  fragment_shader : Nat
  vertex_gl : GLAnswers
  fs : FileSystem
  gl : GLAnswers
  uniforms : shader_uniforms
  CLOCKS_PER_SEC : Int
  clock : Int

/-- How `main` ends: through `exit(status)`, by `return(result)`, or with
the process killed inside `load_file`. -/
inductive Outcome
  | exited (status : Int)
  | returned (result : Int)
  | killed
  deriving DecidableEq, Repr

/-- Embedding of `main`: how it ends and the calls issued from the first
shader compilation on. `gs` are the answers of `getopt`, `fis` the frames
shown until the window is closed. -/
def main (argc : Int) (atoi : String → Int) (gs : List GetoptResult)
    (st : Startup) (fis : List FrameInput) : Outcome × List Call :=
  let result : Int := 0
  if argc < 2 then (Outcome.exited EXIT_FAILURE, [])
  else
    let o := parse_options atoi gs
    if o.arg_error ≠ 0 then (Outcome.exited EXIT_FAILURE, [])
    else
      match o.filename with
      | none => (Outcome.exited EXIT_FAILURE, [])
      | some filename =>
        if st.glfwInit = 0 then (Outcome.returned result, [])
        else if !st.window then (Outcome.returned result, [])
        else if st.glew_condition then (Outcome.returned result, [])
        else
          let (compiled, c0) := compile_shader st.vertex_gl st.vertex_shader
            vertex_shader_source vertex_shader_source.length 1
          if compiled < 0 then
            (Outcome.returned result, c0 ++
              [Call.fprintf Stream.stderr "Could not compile build in shader. \n"])
          else
            let c0 := c0 ++ [Call.glAttachShader st.shader_program st.vertex_shader]
            let frag_shader_init_verbose : Int := 1
            match load_fragment_file_to_program st.fs st.gl
              filename st.shader_program st.fragment_shader
              frag_shader_init_verbose with
            | (none, c1) =>
              (Outcome.killed, c0 ++
                [Call.enter_load_fragment_file_to_program filename
                  frag_shader_init_verbose] ++ c1)
            | (some result, c1) =>
              let c1 := [Call.enter_load_fragment_file_to_program filename
                  frag_shader_init_verbose] ++ c1 ++
                [Call.leave_load_fragment_file_to_program result]
              let c2 := if result < 0 then
                  [Call.fprintf Stream.stdout "Failed to load fragment shader.\n"]
                else []
              let c3 := [Call.glUseProgram st.shader_program]
              let (_, uniforms, c4) := shader_uniforms_locate st.gl
                st.shader_program st.uniforms frag_shader_init_verbose
              let c4 := [Call.enter_shader_uniforms_locate st.shader_program
                frag_shader_init_verbose] ++ c4
              let cfg : Config :=
                { verbose := o.verbose,
                  reload_interval_ms := o.reload_interval_ms,
                  filename := filename,
                  shader_program := st.shader_program,
                  fragment_shader := st.fragment_shader,
                  CLOCKS_PER_SEC := st.CLOCKS_PER_SEC }
              let s0 : LoopState :=
                { result := result, uniforms := uniforms,
                  recently_reloaded := 0, reload_timer := st.clock }
              match frames cfg s0 fis with
              | (some s1, c5) =>
                (Outcome.returned s1.result, c0 ++ c1 ++ c2 ++ c3 ++ c4 ++ c5)
              | (none, c5) =>
                (Outcome.killed, c0 ++ c1 ++ c2 ++ c3 ++ c4 ++ c5)

/-! ## Per-frame counts and the elapsed time in the words of the specification -/

/-- The number of reload attempts made in each frame of a run, in order; a
frame that the process does not live to run makes none. -/
def frame_attempts (cfg : Config) : LoopState → List FrameInput → List Nat
  | _, [] => []
  | s, i :: rest =>
    load_attempts (frame cfg s i).2 ::
      match (frame cfg s i).1 with
      | some s1 => frame_attempts cfg s1 rest
      | none => List.replicate rest.length 0

/-- The elapsed time in milliseconds as the specification words it:
elapsed clock ticks `* 1000 / CLOCKS_PER_SEC`. -/
def spec_elapsed_ms (CLOCKS_PER_SEC now reload_timer : Int) : ℚ :=
  ((now - reload_timer : Int) : ℚ) * 1000 / (CLOCKS_PER_SEC : ℚ)

/-! ## Sample inputs -/

/-- A file system in which no file can be opened. -/
def fs_missing : FileSystem :=
  fun _ => { fopen_ok := false, ftell := 0, malloc_ok := true, fread := [] }

/-- A file system in which every file can be opened and `ftell` reports five
bytes, while `fread` delivers three: a short read. -/
def fs_short : FileSystem :=
  fun _ => { fopen_ok := true, ftell := 5, malloc_ok := true,
             fread := [118, 111, 105] }

/-- A file system in which every file can be opened and `malloc` fails. -/
def fs_no_memory : FileSystem :=
  fun _ => { fopen_ok := true, ftell := 3, malloc_ok := false, fread := [] }

/-- A file system in which every file holds the three bytes `v o i`. -/
def fs_good : FileSystem :=
  fun _ => { fopen_ok := true, ftell := 3, malloc_ok := true,
             fread := [118, 111, 105] }

/-- A driver that compiles and links, and knows the three uniforms. -/
def gl_good : GLAnswers :=
  { compile_status := 1, shader_log := "", link_status := 1, program_log := "",
    uniform_location := fun name =>
      if name = "resolution" then 0 else if name = "mouse" then 1
      else if name = "time" then 2 else -1 }

/-- A driver that rejects the source at compilation. -/
def gl_compile_error : GLAnswers :=
  { gl_good with compile_status := GL_FALSE, shader_log := "0:1: error" }

/-- A driver that compiles the source and fails to link. -/
def gl_link_error : GLAnswers :=
  { gl_good with link_status := GL_FALSE, program_log := "link error" }

/-- A configuration with the automatic reload disabled. -/
def cfg_manual : Config :=
  { verbose := 0, reload_interval_ms := 0, filename := "shader.frag",
    shader_program := 1, fragment_shader := 3, CLOCKS_PER_SEC := 1000000 }

/-- A configuration with the default interval of 1000. -/
def cfg_timer : Config :=
  { verbose := 0, reload_interval_ms := 1000, filename := "shader.frag",
    shader_program := 1, fragment_shader := 3, CLOCKS_PER_SEC := 1000000 }

/-- A loop state right after a successful first load at clock 0. -/
def state0 : LoopState :=
  { result := 1, uniforms := { resolution := 0, mouse := 1, scroll := 0, time := 2 },
    recently_reloaded := 0, reload_timer := 0 }

/-- A frame with the R key pressed, 20000 clock ticks after start, the
shader file being loadable. -/
def frame_pressed : FrameInput :=
  { width := 640, height := 480, mouse_x := 0, mouse_y := 0,
    clock_time := 20000, clock_sched := 20000, reload_key := GLFW_PRESS,
    fs := fs_good, gl := gl_good, clock_after := 20500,
    undefined_int := -2147483648 }

/-- A frame with the R key released, 20000 clock ticks after start. -/
def frame_released : FrameInput :=
  { frame_pressed with reload_key := 0 }

/-- A frame with the R key pressed while the shader file cannot be opened. -/
def frame_pressed_missing : FrameInput :=
  { frame_pressed with fs := fs_missing }

/-- A frame with the R key pressed while reading the shader file comes up
short. -/
def frame_pressed_short : FrameInput :=
  { frame_pressed with fs := fs_short }

/-- A start-up in which `glfwInit` fails. -/
def startup_no_glfw : Startup :=
  { glfwInit := 0, window := false, glew_condition := false,
    shader_program := 0, vertex_shader := 0, fragment_shader := 0,
    vertex_gl := gl_good, fs := fs_good, gl := gl_good,
    uniforms := { resolution := 0, mouse := 0, scroll := 0, time := 0 },
    CLOCKS_PER_SEC := 1000000, clock := 0 }

/-- A start-up in which everything succeeds. -/
def startup_good : Startup :=
  { glfwInit := 1, window := true, glew_condition := false,
    shader_program := 1, vertex_shader := 2, fragment_shader := 3,
    vertex_gl := gl_good, fs := fs_good, gl := gl_good,
    uniforms := { resolution := 0, mouse := 0, scroll := 0, time := 0 },
    CLOCKS_PER_SEC := 1000000, clock := 0 }

/-! ## Basic facts about the reload functions -/

/-- The call of `load_file` does not return exactly when `fopen` fails. -/
theorem load_file_killed_iff (fs : FileSystem) (filename : String) :
    (load_file fs filename).1 = none ↔ (fs filename).fopen_ok = false := by
  simp only [load_file]
  split_ifs <;> simp_all

/-- The call of `load_file` returns `NULL` exactly when `fopen` succeeds and
then `malloc` fails or `fread` comes up short; `*size` is then `0`. -/
theorem load_file_null_iff (fs : FileSystem) (filename : String) :
    (load_file fs filename).1 = some (none, 0) ↔
      ((fs filename).fopen_ok = true ∧
        ((fs filename).malloc_ok = false ∨
          (fs filename).fread.length % 2 ^ 32 ≠ (fs filename).ftell % 2 ^ 32)) := by
  simp only [load_file]
  split_ifs <;> simp_all

theorem load_file_null_size (fs : FileSystem) (filename : String) (n : Nat)
    (h : (load_file fs filename).1 = some (none, n)) : n = 0 := by
  simp only [load_file] at h
  split_ifs at h <;> simp_all

theorem compile_shader_result (gl : GLAnswers) (shader : Nat) (source : List Nat)
    (size : Nat) (verbose : Int) :
    (compile_shader gl shader source size verbose).1 =
      if gl.compile_status = GL_FALSE then -1 else 0 := by
  unfold compile_shader
  split <;> simp

theorem compile_shader_changesProgram (gl : GLAnswers) (shader : Nat)
    (source : List Nat) (size : Nat) (verbose : Int) :
    (compile_shader gl shader source size verbose).2.filter Call.changesProgram = [] := by
  unfold compile_shader
  split <;> [split; skip] <;> simp [Call.changesProgram]

theorem load_file_changesProgram (fs : FileSystem) (filename : String) :
    (load_file fs filename).2.filter Call.changesProgram = [] := by
  simp only [load_file]
  split_ifs <;> simp [Call.changesProgram]

/-- The value `load_fragment_file_to_program` returns, by outcome. -/
theorem load_fragment_result (fs : FileSystem) (gl : GLAnswers)
    (filename : String) (program shader : Nat) (verbose : Int) :
    (load_fragment_file_to_program fs gl filename program shader verbose).1 =
      match (load_file fs filename).1 with
      | none => none
      | some (none, _) => some 1
      | some (some _, _) =>
        some (if gl.compile_status = GL_FALSE then -1
              else if gl.link_status = GL_FALSE then -1 else 1) := by
  rcases h : load_file fs filename with ⟨_ | ⟨_ | buffer, size⟩, c0⟩
  · simp [load_fragment_file_to_program, h]
  · simp [load_fragment_file_to_program, h]
  · simp only [load_fragment_file_to_program, h, compile_shader_result]
    by_cases hc : gl.compile_status = GL_FALSE
    · simp [hc]
    · by_cases hl : gl.link_status = GL_FALSE <;> simp [hc, hl]

theorem load_fragment_result_cases (fs : FileSystem) (gl : GLAnswers)
    (filename : String) (program shader : Nat) (verbose : Int) (r : Int)
    (h : (load_fragment_file_to_program fs gl filename program shader verbose).1 =
      some r) : r = 1 ∨ r = -1 := by
  rw [load_fragment_result] at h
  rcases h0 : (load_file fs filename).1 with _ | ⟨_ | buffer, size⟩
  · simp [h0] at h
  · simp [h0] at h
    exact Or.inl h.symm
  · simp only [h0, Option.some.injEq] at h
    rw [← h]
    split_ifs <;> simp

/-- The call does not return when `fopen` fails. -/
theorem load_fragment_killed_iff (fs : FileSystem) (gl : GLAnswers)
    (filename : String) (program shader : Nat) (verbose : Int) :
    (load_fragment_file_to_program fs gl filename program shader verbose).1 = none ↔
      (fs filename).fopen_ok = false := by
  rw [load_fragment_result, ← load_file_killed_iff]
  rcases h0 : (load_file fs filename).1 with _ | ⟨_ | buffer, size⟩ <;> simp

/-- The calls of `load_fragment_file_to_program` that change a program. -/
theorem load_fragment_changesProgram (fs : FileSystem) (gl : GLAnswers)
    (filename : String) (program shader : Nat) (verbose : Int) :
    (load_fragment_file_to_program fs gl filename program shader verbose).2.filter
        Call.changesProgram =
      match (load_file fs filename).1 with
      | some (some _, _) =>
        if gl.compile_status = GL_FALSE then []
        else [Call.glAttachShader program shader, Call.glLinkProgram program,
              Call.glDetachShader program shader]
      | _ => [] := by
  have h0 := load_file_changesProgram fs filename
  rcases h : load_file fs filename with ⟨_ | ⟨_ | buffer, size⟩, c0⟩
  · rw [h] at h0
    dsimp only at h0
    simp [load_fragment_file_to_program, h, h0]
  · rw [h] at h0
    dsimp only at h0
    simp [load_fragment_file_to_program, h, List.filter_append, h0, Call.changesProgram]
  · rw [h] at h0
    dsimp only at h0
    have h1 := compile_shader_changesProgram gl shader buffer size verbose
    simp only [load_fragment_file_to_program, h, compile_shader_result]
    by_cases hc : gl.compile_status = GL_FALSE
    · rcases eq_or_ne verbose 0 with rfl | hv <;>
        simp [*, List.filter_append, Call.changesProgram]
    · by_cases hl : gl.link_status = GL_FALSE <;>
        rcases eq_or_ne verbose 0 with rfl | hv <;>
        simp [*, List.filter_append, Call.changesProgram]

/-! ## Facts about traces -/

theorem stage_attached_filter (program shader : Nat) (b : Bool) (tr : List Call) :
    stage_attached program shader b tr =
      stage_attached program shader b (tr.filter Call.changesProgram) := by
  induction tr generalizing b with
  | nil => rfl
  | cons c rest ih =>
    cases c <;> simp [stage_attached, Call.changesProgram, List.filter_cons, ih]

theorem filter_isLoadEnter_of_isMarker (tr : List Call)
    (h : tr.filter Call.isMarker = []) : tr.filter Call.isLoadEnter = [] := by
  rw [List.filter_eq_nil_iff] at h ⊢
  intro c hc
  have := h c hc
  cases c <;> simp_all [Call.isMarker, Call.isLoadEnter]

theorem filter_isLoadLeave_of_isMarker (tr : List Call)
    (h : tr.filter Call.isMarker = []) : tr.filter Call.isLoadLeave = [] := by
  rw [List.filter_eq_nil_iff] at h ⊢
  intro c hc
  have := h c hc
  cases c <;> simp_all [Call.isMarker, Call.isLoadLeave]

theorem filter_isLocateEnter_of_isMarker (tr : List Call)
    (h : tr.filter Call.isMarker = []) : tr.filter Call.isLocateEnter = [] := by
  rw [List.filter_eq_nil_iff] at h ⊢
  intro c hc
  have := h c hc
  cases c <;> simp_all [Call.isMarker, Call.isLocateEnter]

theorem last_load_result_append_some (a b : List Call) (r : Int)
    (h : last_load_result b = some r) : last_load_result (a ++ b) = some r := by
  induction a with
  | nil => simpa using h
  | cons c rest ih => cases c <;> simp [last_load_result, ih]

theorem last_load_result_append_none (a b : List Call)
    (h : last_load_result b = none) :
    last_load_result (a ++ b) = last_load_result a := by
  induction a with
  | nil => simpa [last_load_result] using h
  | cons c rest ih => cases c <;> simp [last_load_result, ih]

theorem last_load_result_of_isMarker (tr : List Call)
    (h : tr.filter Call.isMarker = []) : last_load_result tr = none := by
  induction tr with
  | nil => rfl
  | cons c rest ih =>
    cases c <;> simp_all [last_load_result, List.filter_cons, Call.isMarker]

theorem load_file_isMarker (fs : FileSystem) (filename : String) :
    (load_file fs filename).2.filter Call.isMarker = [] := by
  simp only [load_file]
  split_ifs <;> simp [Call.isMarker]

theorem compile_shader_isMarker (gl : GLAnswers) (shader : Nat)
    (source : List Nat) (size : Nat) (verbose : Int) :
    (compile_shader gl shader source size verbose).2.filter Call.isMarker = [] := by
  unfold compile_shader
  split <;> [split; skip] <;> simp [Call.isMarker]

theorem load_fragment_isMarker (fs : FileSystem) (gl : GLAnswers)
    (filename : String) (program shader : Nat) (verbose : Int) :
    (load_fragment_file_to_program fs gl filename program shader verbose).2.filter
        Call.isMarker = [] := by
  have h0 := load_file_isMarker fs filename
  rcases h : load_file fs filename with ⟨_ | ⟨_ | buffer, size⟩, c0⟩
  · rw [h] at h0
    dsimp only at h0
    simp [load_fragment_file_to_program, h, h0]
  · rw [h] at h0
    dsimp only at h0
    simp [load_fragment_file_to_program, h, List.filter_append, h0, Call.isMarker]
  · rw [h] at h0
    dsimp only at h0
    have h1 := compile_shader_isMarker gl shader buffer size verbose
    simp only [load_fragment_file_to_program, h, compile_shader_result]
    by_cases hc : gl.compile_status = GL_FALSE
    · rcases eq_or_ne verbose 0 with rfl | hv <;>
        simp [*, List.filter_append, Call.isMarker]
    · by_cases hl : gl.link_status = GL_FALSE <;>
        rcases eq_or_ne verbose 0 with rfl | hv <;>
        simp [*, List.filter_append, Call.isMarker]

theorem shader_uniform_location_isMarker (gl : GLAnswers) (program : Nat)
    (name : String) (verbose : Int) :
    (shader_uniform_location gl program name verbose).2.filter Call.isMarker = [] := by
  simp only [shader_uniform_location]
  split_ifs <;> simp [Call.isMarker]

theorem shader_uniform_location_value (gl : GLAnswers) (program : Nat)
    (name : String) (verbose : Int) :
    (shader_uniform_location gl program name verbose).1 = gl.uniform_location name := by
  simp only [shader_uniform_location]
  split_ifs <;> simp

theorem shader_uniforms_locate_isMarker (gl : GLAnswers) (program : Nat)
    (uniforms : shader_uniforms) (verbose : Int) :
    (shader_uniforms_locate gl program uniforms verbose).2.2.filter Call.isMarker = [] := by
  simp [shader_uniforms_locate, List.filter_append, shader_uniform_location_isMarker]

theorem shader_uniforms_locate_value (gl : GLAnswers) (program : Nat)
    (uniforms : shader_uniforms) (verbose : Int) :
    (shader_uniforms_locate gl program uniforms verbose).2.1 =
      { resolution := gl.uniform_location "resolution",
        mouse := gl.uniform_location "mouse",
        scroll := uniforms.scroll,
        time := gl.uniform_location "time" } := by
  simp [shader_uniforms_locate, shader_uniform_location_value]

theorem filter_isLoadEnter_filter_isMarker (tr : List Call) :
    (tr.filter Call.isMarker).filter Call.isLoadEnter = tr.filter Call.isLoadEnter := by
  induction tr with
  | nil => rfl
  | cons c rest ih =>
    cases c <;> simp [List.filter_cons, Call.isMarker, Call.isLoadEnter, ih]

theorem filter_isLocateEnter_filter_isMarker (tr : List Call) :
    (tr.filter Call.isMarker).filter Call.isLocateEnter =
      tr.filter Call.isLocateEnter := by
  induction tr with
  | nil => rfl
  | cons c rest ih =>
    cases c <;> simp [List.filter_cons, Call.isMarker, Call.isLocateEnter, ih]

theorem last_load_result_filter_isMarker (tr : List Call) :
    last_load_result (tr.filter Call.isMarker) = last_load_result tr := by
  induction tr with
  | nil => rfl
  | cons c rest ih =>
    cases c <;> simp [List.filter_cons, Call.isMarker, last_load_result, ih]

/-! ## Facts about one frame -/

/-- At 16777219 ticks the tick difference rounds to the `float` 16777220
and `last_reload_ms` is 1677722. -/
theorem last_reload_ms_rounds :
    last_reload_ms 1000000 16777219 0 (-2147483648) = 1677722 := by decide

/-- A quotient of `2 ^ 31` is outside the range of `int`: the value is the
one the platform leaves. -/
theorem last_reload_ms_out_of_range :
    last_reload_ms 1000000 21474836480 0 (-2147483648) = -2147483648 ∧
    last_reload_ms 1000000 21474836480 0 2147483647 = 2147483647 := by
  constructor <;> decide

theorem schedule_isMarker (cfg : Config) (s : LoopState) (i : FrameInput) :
    (schedule cfg s i).2.2.2.filter Call.isMarker = [] := by
  simp only [schedule]
  split_ifs <;> simp [Call.isMarker]

/-- The value of `reload` is nonzero exactly when the timer path or the
manual path fired. -/
theorem schedule_reload (cfg : Config) (s : LoopState) (i : FrameInput) :
    (schedule cfg s i).1 ≠ 0 ↔
      ((cfg.reload_interval_ms ≠ 0 ∧ cfg.reload_interval_ms <
          last_reload_ms cfg.CLOCKS_PER_SEC i.clock_sched s.reload_timer
            i.undefined_int) ∨
        (i.reload_key = GLFW_PRESS ∧ s.recently_reloaded = 0)) := by
  simp only [schedule, timer_path]
  split_ifs <;> simp_all

/-- The state after a frame, in terms of the scheduler. -/
theorem frame_state (cfg : Config) (s : LoopState) (i : FrameInput) :
    (frame cfg s i).1 =
      if (schedule cfg s i).1 ≠ 0 then
        (reload_block cfg s i (schedule cfg s i).2.1 (schedule cfg s i).2.2.1).1
      else some { s with recently_reloaded := (schedule cfg s i).2.2.1 } := by
  simp only [frame]
  split_ifs <;> rfl

/-- The state after the reload block. -/
theorem reload_block_state (cfg : Config) (s : LoopState) (i : FrameInput)
    (v rr : Int) :
    (reload_block cfg s i v rr).1 =
      (load_fragment_file_to_program i.fs i.gl cfg.filename
          cfg.shader_program cfg.fragment_shader v).1.map
        (fun result =>
          { result := result,
            uniforms :=
              if result < 0 then s.uniforms
              else { resolution := i.gl.uniform_location "resolution",
                     mouse := i.gl.uniform_location "mouse",
                     scroll := s.uniforms.scroll,
                     time := i.gl.uniform_location "time" },
            recently_reloaded := rr,
            reload_timer := i.clock_after }) := by
  rcases h : load_fragment_file_to_program i.fs i.gl cfg.filename
      cfg.shader_program cfg.fragment_shader v with ⟨_ | r, c1⟩
  · simp [reload_block, h]
  · simp only [reload_block, h]
    by_cases hr : r < 0 <;> simp [hr, shader_uniforms_locate_value]

/-- The markers in the trace of the reload block. -/
theorem reload_block_markers (cfg : Config) (s : LoopState) (i : FrameInput)
    (v rr : Int) :
    (reload_block cfg s i v rr).2.filter Call.isMarker =
      Call.enter_load_fragment_file_to_program cfg.filename v ::
      match (load_fragment_file_to_program i.fs i.gl cfg.filename
          cfg.shader_program cfg.fragment_shader v).1 with
      | none => []
      | some r =>
        Call.leave_load_fragment_file_to_program r ::
          if r < 0 then []
          else [Call.enter_shader_uniforms_locate cfg.shader_program v] := by
  have hm := load_fragment_isMarker i.fs i.gl cfg.filename cfg.shader_program
    cfg.fragment_shader v
  rcases h : load_fragment_file_to_program i.fs i.gl cfg.filename
      cfg.shader_program cfg.fragment_shader v with ⟨_ | r, c1⟩
  · rw [h] at hm
    dsimp only at hm
    simp [reload_block, h, List.filter_append, hm, Call.isMarker]
  · rw [h] at hm
    dsimp only at hm
    simp only [reload_block, h]
    split_ifs <;>
      simp [List.filter_append, hm, shader_uniforms_locate_isMarker, Call.isMarker]

/-- The markers in the trace of one frame. -/
theorem frame_markers (cfg : Config) (s : LoopState) (i : FrameInput) :
    (frame cfg s i).2.filter Call.isMarker =
      if (schedule cfg s i).1 ≠ 0 then
        (reload_block cfg s i (schedule cfg s i).2.1
          (schedule cfg s i).2.2.1).2.filter Call.isMarker
      else [] := by
  have h := schedule_isMarker cfg s i
  simp only [frame]
  split_ifs <;> simp [List.filter_append, h, Call.isMarker]

/-- The calls of `load_fragment_file_to_program` in one frame. -/
theorem frame_load_calls (cfg : Config) (s : LoopState) (i : FrameInput) :
    (frame cfg s i).2.filter Call.isLoadEnter =
      if (schedule cfg s i).1 ≠ 0 then
        [Call.enter_load_fragment_file_to_program cfg.filename (schedule cfg s i).2.1]
      else [] := by
  rw [← filter_isLoadEnter_filter_isMarker, frame_markers]
  split_ifs with h
  · rw [reload_block_markers]
    rcases (load_fragment_file_to_program i.fs i.gl cfg.filename
      cfg.shader_program cfg.fragment_shader (schedule cfg s i).2.1).1 with _ | r
    · simp [List.filter_cons, Call.isLoadEnter]
    · by_cases hr : r < 0 <;> simp [hr, List.filter_cons, Call.isLoadEnter]
  · rfl

/-- The calls of `shader_uniforms_locate` in one frame. -/
theorem frame_locate_calls (cfg : Config) (s : LoopState) (i : FrameInput) :
    (frame cfg s i).2.filter Call.isLocateEnter =
      if (schedule cfg s i).1 ≠ 0 then
        match (load_fragment_file_to_program i.fs i.gl cfg.filename
            cfg.shader_program cfg.fragment_shader (schedule cfg s i).2.1).1 with
        | none => []
        | some r =>
          if r < 0 then []
          else [Call.enter_shader_uniforms_locate cfg.shader_program
            (schedule cfg s i).2.1]
      else [] := by
  rw [← filter_isLocateEnter_filter_isMarker, frame_markers]
  split_ifs with h
  · rw [reload_block_markers]
    rcases (load_fragment_file_to_program i.fs i.gl cfg.filename
      cfg.shader_program cfg.fragment_shader (schedule cfg s i).2.1).1 with _ | r
    · simp [List.filter_cons, Call.isLocateEnter]
    · by_cases hr : r < 0 <;> simp [hr, List.filter_cons, Call.isLocateEnter]
  · rfl

/-- The value returned by the reload call of one frame, if there is one. -/
theorem frame_last_load_result (cfg : Config) (s : LoopState) (i : FrameInput) :
    last_load_result (frame cfg s i).2 =
      if (schedule cfg s i).1 ≠ 0 then
        (load_fragment_file_to_program i.fs i.gl cfg.filename
          cfg.shader_program cfg.fragment_shader (schedule cfg s i).2.1).1
      else none := by
  rw [← last_load_result_filter_isMarker, frame_markers]
  split_ifs with h
  · rw [reload_block_markers]
    rcases (load_fragment_file_to_program i.fs i.gl cfg.filename
      cfg.shader_program cfg.fragment_shader (schedule cfg s i).2.1).1 with _ | r
    · simp [last_load_result]
    · by_cases hr : r < 0 <;> simp [hr, last_load_result]
  · rfl

/-- A frame makes one reload attempt when `reload` is set and none otherwise. -/
theorem frame_load_attempts (cfg : Config) (s : LoopState) (i : FrameInput) :
    load_attempts (frame cfg s i).2 = if (schedule cfg s i).1 ≠ 0 then 1 else 0 := by
  rw [load_attempts, frame_load_calls]
  split_ifs <;> rfl

/-- A frame is completed unless it attempts a reload and `fopen` fails. -/
theorem frame_killed_iff (cfg : Config) (s : LoopState) (i : FrameInput) :
    (frame cfg s i).1 = none ↔
      ((schedule cfg s i).1 ≠ 0 ∧ (i.fs cfg.filename).fopen_ok = false) := by
  rw [frame_state]
  split_ifs with h
  · rw [reload_block_state, Option.map_eq_none', load_fragment_killed_iff]
    simp [h]
  · simp [h]

/-- In a frame that attempts a reload while the shader file cannot be
opened, the process is killed inside `load_file`: the frame leaves no locals,
and its trace ends with the call of `load_fragment_file_to_program` and the
`perror` of `load_file`. -/
theorem frame_killed_on_missing_file :
    (frame cfg_manual state0 frame_pressed_missing).1 = none ∧
    (frame cfg_manual state0 frame_pressed_missing).2.drop 4 =
      [Call.fprintf Stream.stdout "Reloading shader.\n",
       Call.enter_load_fragment_file_to_program "shader.frag" 1,
       Call.perror "Could not open file"] := by
  constructor
  · rw [frame_killed_iff, schedule_reload]
    exact ⟨Or.inr ⟨rfl, rfl⟩, rfl⟩
  · simp [frame, schedule, timer_path, reload_block, load_fragment_file_to_program,
      load_file, cfg_manual, state0, frame_pressed_missing, frame_pressed,
      fs_missing, GLFW_PRESS]

/-! ## Claims about `load_fragment_file_to_program` -/

/-- C1. When `load_file` returns `NULL` (after a short `fread`, or after a
failed `malloc`), `load_fragment_file_to_program` reports "could not load
shader file." and returns `1`, which is not a failure value: the `else`
branch leaves `result` at its initial value. -/
theorem load_fragment_load_failure_returns_one :
    (load_file fs_short "shader.frag").1 = some (none, 0) ∧
    load_fragment_file_to_program fs_short gl_good "shader.frag" 1 3 1 =
      (some 1, [Call.perror "could not read file",
                Call.fprintf Stream.stderr "could not load shader file.\n"]) ∧
    (load_file fs_no_memory "shader.frag").1 = some (none, 0) ∧
    load_fragment_file_to_program fs_no_memory gl_good "shader.frag" 1 3 1 =
      (some 1, [Call.perror "could not allocate memory",
                Call.fprintf Stream.stderr "could not load shader file.\n"]) ∧
    ¬ ((1 : Int) < 0) := by
  refine ⟨?_, ?_, ?_, ?_, by decide⟩ <;>
    simp [load_fragment_file_to_program, load_file, fs_short, fs_no_memory]

/-- C3. The calls of `load_fragment_file_to_program` that change a program
object are none when the file load or the compilation fails, and are exactly
attach, link, detach (of the given stage, on the given program) when the
compilation succeeds, whatever the link status; a stage that was not attached
before the call is not attached after it. -/
theorem load_fragment_program_operations (fs : FileSystem) (gl : GLAnswers)
    (filename : String) (program shader : Nat) (verbose : Int) :
    ((∀ buffer size, (load_file fs filename).1 ≠ some (some buffer, size)) ∨
        gl.compile_status = GL_FALSE →
      (load_fragment_file_to_program fs gl filename program shader verbose).2.filter
        Call.changesProgram = []) ∧
    ((∃ buffer size, (load_file fs filename).1 = some (some buffer, size)) ∧
        gl.compile_status ≠ GL_FALSE →
      (load_fragment_file_to_program fs gl filename program shader verbose).2.filter
        Call.changesProgram =
        [Call.glAttachShader program shader, Call.glLinkProgram program,
         Call.glDetachShader program shader]) ∧
    stage_attached program shader false
      (load_fragment_file_to_program fs gl filename program shader verbose).2 = false := by
  refine ⟨?_, ?_, ?_⟩
  · intro h
    rw [load_fragment_changesProgram]
    rcases h0 : (load_file fs filename).1 with _ | ⟨_ | buffer, size⟩
    · rfl
    · rfl
    · rcases h with h | h
      · exact absurd h0 (h buffer size)
      · simp [h]
  · rintro ⟨⟨buffer, size, h0⟩, hc⟩
    rw [load_fragment_changesProgram, h0]
    simp [hc]
  · rw [stage_attached_filter, load_fragment_changesProgram]
    rcases (load_file fs filename).1 with _ | ⟨_ | buffer, size⟩
    · rfl
    · rfl
    · by_cases hc : gl.compile_status = GL_FALSE <;> simp [hc, stage_attached]

/-- C3, at sample inputs: a short read gives no program operation, a link
failure gives attach, link, detach. -/
theorem load_fragment_program_operations_witness :
    (load_fragment_file_to_program fs_short gl_good "shader.frag" 1 3 1).2.filter
        Call.changesProgram = [] ∧
    (load_fragment_file_to_program fs_good gl_link_error "shader.frag" 1 3 0).2.filter
        Call.changesProgram =
      [Call.glAttachShader 1 3, Call.glLinkProgram 1, Call.glDetachShader 1 3] :=
  ⟨(load_fragment_program_operations fs_short gl_good "shader.frag" 1 3 1).1
      (Or.inl (by simp [load_file, fs_short])),
   (load_fragment_program_operations fs_good gl_link_error "shader.frag" 1 3 0).2.1
      ⟨⟨[118, 111, 105], 3, by simp [load_file, fs_good]⟩,
       by simp [gl_link_error, gl_good, GL_FALSE]⟩⟩

/-! ## Claims about one frame -/

/-- The part of the uniform-cache rule that the code keeps: in a frame that
attempts a reload and is completed, a negative result leaves the cache alone
and calls `shader_uniforms_locate` not at all, any other result calls it once
and replaces the three locations by the answers of the driver. -/
theorem frame_uniform_cache (cfg : Config) (s s1 : LoopState) (i : FrameInput)
    (h : (schedule cfg s i).1 ≠ 0) (h1 : (frame cfg s i).1 = some s1) :
    (s1.result < 0 →
      locate_calls (frame cfg s i).2 = 0 ∧ s1.uniforms = s.uniforms) ∧
    (¬ s1.result < 0 →
      locate_calls (frame cfg s i).2 = 1 ∧
      s1.uniforms =
        { resolution := i.gl.uniform_location "resolution",
          mouse := i.gl.uniform_location "mouse",
          scroll := s.uniforms.scroll,
          time := i.gl.uniform_location "time" }) := by
  rw [frame_state, if_pos h, reload_block_state] at h1
  simp only [locate_calls, frame_locate_calls, if_pos h]
  rcases hl : (load_fragment_file_to_program i.fs i.gl cfg.filename
      cfg.shader_program cfg.fragment_shader (schedule cfg s i).2.1).1 with _ | r
  · simp [hl] at h1
  · simp only [hl, Option.map_some', Option.some.injEq] at h1
    subst h1
    constructor
    · intro h2
      have h3 : r < 0 := h2
      simp [h3]
    · intro h2
      have h3 : ¬ r < 0 := h2
      simp [h3]

/-- C2. In a frame that attempts a reload while reading the file comes up
short, `load_file` returns `NULL`, `load_fragment_file_to_program` returns
`1` and `shader_uniforms_locate` is called once. -/
theorem frame_load_failure_calls_locate :
    (schedule cfg_manual state0 frame_pressed_short).1 ≠ 0 ∧
    (load_file frame_pressed_short.fs cfg_manual.filename).1 = some (none, 0) ∧
    (frame cfg_manual state0 frame_pressed_short).1.map LoopState.result = some 1 ∧
    locate_calls (frame cfg_manual state0 frame_pressed_short).2 = 1 := by
  have h0 : (schedule cfg_manual state0 frame_pressed_short).1 ≠ 0 := by
    rw [schedule_reload]
    right
    simp [frame_pressed_short, frame_pressed, state0]
  have h1 : (load_file frame_pressed_short.fs cfg_manual.filename).1 =
      some (none, 0) := by
    simp [load_file, frame_pressed_short, fs_short]
  have hl : (load_fragment_file_to_program frame_pressed_short.fs
      frame_pressed_short.gl cfg_manual.filename cfg_manual.shader_program
      cfg_manual.fragment_shader
      (schedule cfg_manual state0 frame_pressed_short).2.1).1 = some 1 := by
    rw [load_fragment_result, h1]
  refine ⟨h0, h1, ?_, ?_⟩
  · rw [frame_state, if_pos h0, reload_block_state, hl]
    rfl
  · rw [locate_calls, frame_locate_calls, if_pos h0, hl]
    rfl

/-- C5. With the interval 1000 and `CLOCKS_PER_SEC` one million, a frame
20000 clock ticks (20 milliseconds) after the last attempt, the R key
released, finds `last_reload_ms = 2000` and makes a reload attempt: the
divisor `CLOCKS_PER_SEC/100000` makes `last_reload_ms` one hundred times the
elapsed milliseconds. -/
theorem timer_fires_after_20_ms :
    frame_released.reload_key ≠ GLFW_PRESS ∧
    last_reload_ms cfg_timer.CLOCKS_PER_SEC frame_released.clock_sched
      state0.reload_timer frame_released.undefined_int = 2000 ∧
    load_attempts (frame cfg_timer state0 frame_released).2 = 1 ∧
    spec_elapsed_ms cfg_timer.CLOCKS_PER_SEC frame_released.clock_sched
      state0.reload_timer = 20 ∧
    ¬ (0 < cfg_timer.reload_interval_ms ∧
        (cfg_timer.reload_interval_ms : ℚ) ≤
          spec_elapsed_ms cfg_timer.CLOCKS_PER_SEC frame_released.clock_sched
            state0.reload_timer) := by
  have hl : last_reload_ms cfg_timer.CLOCKS_PER_SEC frame_released.clock_sched
      state0.reload_timer frame_released.undefined_int = 2000 := by decide
  have h0 : (schedule cfg_timer state0 frame_released).1 ≠ 0 := by
    rw [schedule_reload, hl]
    left
    simp [cfg_timer]
  have h1 : spec_elapsed_ms cfg_timer.CLOCKS_PER_SEC frame_released.clock_sched
      state0.reload_timer = 20 := by
    simp only [spec_elapsed_ms, cfg_timer, state0, frame_released, frame_pressed]
    norm_num
  refine ⟨by simp [frame_released, GLFW_PRESS], hl, ?_, h1, ?_⟩
  · rw [frame_load_attempts, if_pos h0]
  · rw [h1]
    simp only [cfg_timer]
    norm_num

/-- The verbosity chosen by the scheduler when the manual path fires. -/
theorem schedule_manual (cfg : Config) (s : LoopState) (i : FrameInput)
    (h : i.reload_key = GLFW_PRESS ∧ s.recently_reloaded = 0) :
    (schedule cfg s i).1 = 1 ∧ (schedule cfg s i).2.1 = 1 ∧
      (schedule cfg s i).2.2.1 = 1 := by
  simp [schedule, h.1, h.2]

/-- The verbosity chosen by the scheduler when only the timer path fires. -/
theorem schedule_timer_only (cfg : Config) (s : LoopState) (i : FrameInput)
    (hm : ¬ (i.reload_key = GLFW_PRESS ∧ s.recently_reloaded = 0))
    (ht : cfg.reload_interval_ms ≠ 0 ∧ cfg.reload_interval_ms <
      last_reload_ms cfg.CLOCKS_PER_SEC i.clock_sched s.reload_timer
        i.undefined_int) :
    (schedule cfg s i).1 = 1 ∧ (schedule cfg s i).2.1 = cfg.verbose := by
  simp only [schedule, timer_path, if_pos ht.2]
  by_cases hk : i.reload_key = GLFW_PRESS
  · have hr : s.recently_reloaded ≠ 0 := fun h0 => hm ⟨hk, h0⟩
    simp [hk, hr, ht.1]
  · simp [hk, ht.1]

/-- C7. In a frame where the manual trigger fires, the verbosity passed to
`load_fragment_file_to_program` and to `shader_uniforms_locate` is `1`,
whatever the global flag and whether or not the timer fires too; in a frame
where only the timer fires it is the global `verbose` flag. In both cases
`load_fragment_file_to_program` is called once and `shader_uniforms_locate`
at most once, after a returned non-negative result. -/
theorem reload_verbosity (cfg : Config) (s : LoopState) (i : FrameInput) :
    (i.reload_key = GLFW_PRESS ∧ s.recently_reloaded = 0 →
      (frame cfg s i).2.filter Call.isLoadEnter =
        [Call.enter_load_fragment_file_to_program cfg.filename 1] ∧
      (frame cfg s i).2.filter Call.isLocateEnter =
        match (load_fragment_file_to_program i.fs i.gl cfg.filename
            cfg.shader_program cfg.fragment_shader 1).1 with
        | none => []
        | some r =>
          if r < 0 then []
          else [Call.enter_shader_uniforms_locate cfg.shader_program 1]) ∧
    (¬ (i.reload_key = GLFW_PRESS ∧ s.recently_reloaded = 0) ∧
      cfg.reload_interval_ms ≠ 0 ∧ cfg.reload_interval_ms <
        last_reload_ms cfg.CLOCKS_PER_SEC i.clock_sched s.reload_timer
          i.undefined_int →
      (frame cfg s i).2.filter Call.isLoadEnter =
        [Call.enter_load_fragment_file_to_program cfg.filename cfg.verbose] ∧
      (frame cfg s i).2.filter Call.isLocateEnter =
        match (load_fragment_file_to_program i.fs i.gl cfg.filename
            cfg.shader_program cfg.fragment_shader cfg.verbose).1 with
        | none => []
        | some r =>
          if r < 0 then []
          else [Call.enter_shader_uniforms_locate cfg.shader_program
            cfg.verbose]) := by
  constructor
  · intro h
    obtain ⟨h1, h2, _⟩ := schedule_manual cfg s i h
    rw [frame_load_calls, frame_locate_calls, h1, h2]
    simp
  · rintro ⟨hm, ht⟩
    obtain ⟨h1, h2⟩ := schedule_timer_only cfg s i hm ht
    rw [frame_load_calls, frame_locate_calls, h1, h2]
    simp

/-- C7, at sample inputs: a manual trigger with the global flag `0` and the
timer firing in the same frame passes `1`; the timer alone passes the global
flag. -/
theorem reload_verbosity_witness :
    (frame cfg_timer state0 frame_pressed).2.filter Call.isLoadEnter =
      [Call.enter_load_fragment_file_to_program "shader.frag" 1] ∧
    (frame cfg_timer state0 frame_released).2.filter Call.isLoadEnter =
      [Call.enter_load_fragment_file_to_program "shader.frag" 0] :=
  ⟨((reload_verbosity cfg_timer state0 frame_pressed).1
      ⟨by simp [frame_pressed], by simp [state0]⟩).1,
   ((reload_verbosity cfg_timer state0 frame_released).2
      ⟨by simp [frame_released, GLFW_PRESS],
       by simp [cfg_timer],
       by decide⟩).1⟩

/-- C9. For a framebuffer of positive width and height, the second call of
a frame sends to the `mouse` location the pair
`((cx - W/2)/W, (cy - H/2)/H)`, in exact arithmetic; this is `(0, 0)` for the
cursor at `(W/2, H/2)` and `(-1/2, -1/2)` for the cursor at `(0, 0)`. -/
theorem mouse_uniform (cfg : Config) (s : LoopState) (i : FrameInput)
    (hW : 0 < i.width) (hH : 0 < i.height) :
    (frame cfg s i).2[1]? =
      some (Call.glUniform2f s.uniforms.mouse
        ((i.mouse_x - (i.width : ℚ) / 2) / (i.width : ℚ))
        ((i.mouse_y - (i.height : ℚ) / 2) / (i.height : ℚ))) ∧
    (i.mouse_x = (i.width : ℚ) / 2 ∧ i.mouse_y = (i.height : ℚ) / 2 →
      (frame cfg s i).2[1]? = some (Call.glUniform2f s.uniforms.mouse 0 0)) ∧
    (i.mouse_x = 0 ∧ i.mouse_y = 0 →
      (frame cfg s i).2[1]? =
        some (Call.glUniform2f s.uniforms.mouse (-1 / 2) (-1 / 2))) := by
  have hw : (i.width : ℚ) ≠ 0 := by
    have : (0 : ℚ) < (i.width : ℚ) := by exact_mod_cast hW
    exact ne_of_gt this
  have hh : (i.height : ℚ) ≠ 0 := by
    have : (0 : ℚ) < (i.height : ℚ) := by exact_mod_cast hH
    exact ne_of_gt this
  have base : (frame cfg s i).2[1]? =
      some (Call.glUniform2f s.uniforms.mouse
        ((i.mouse_x - (i.width : ℚ) / 2) / (i.width : ℚ))
        ((i.mouse_y - (i.height : ℚ) / 2) / (i.height : ℚ))) := by
    simp only [frame, mouse_xy]
    split_ifs <;> simp
  refine ⟨base, ?_, ?_⟩
  · rintro ⟨hx, hy⟩
    rw [base, hx, hy]
    simp
  · rintro ⟨hx, hy⟩
    rw [base, hx, hy]
    congr 2
    · field_simp
      ring
    · field_simp
      ring

/-- C9, at a sample input: a 640 by 480 framebuffer with the cursor at the
origin. -/
theorem mouse_uniform_witness :
    0 < frame_released.width ∧ 0 < frame_released.height ∧
    (frame cfg_manual state0 frame_released).2[1]? =
      some (Call.glUniform2f state0.uniforms.mouse (-1 / 2) (-1 / 2)) :=
  ⟨by decide, by decide,
   (mouse_uniform cfg_manual state0 frame_released (by decide) (by decide)).2.2
     ⟨rfl, rfl⟩⟩

/-! ## Claims about runs of frames -/

theorem frames_cons_some (cfg : Config) (s s1 : LoopState) (i : FrameInput)
    (rest : List FrameInput) (h : (frame cfg s i).1 = some s1) :
    frames cfg s (i :: rest) =
      ((frames cfg s1 rest).1, (frame cfg s i).2 ++ (frames cfg s1 rest).2) := by
  rcases hf : frame cfg s i with ⟨_ | sa, c1⟩
  · rw [hf] at h
    simp at h
  · rw [hf] at h
    simp only [Option.some.injEq] at h
    subst h
    simp [frames, hf]

theorem frames_cons_none (cfg : Config) (s : LoopState) (i : FrameInput)
    (rest : List FrameInput) (h : (frame cfg s i).1 = none) :
    frames cfg s (i :: rest) = (none, (frame cfg s i).2) := by
  rcases hf : frame cfg s i with ⟨_ | sa, c1⟩
  · simp [frames, hf]
  · rw [hf] at h
    simp at h

theorem frame_attempts_cons_some (cfg : Config) (s s1 : LoopState)
    (i : FrameInput) (rest : List FrameInput) (h : (frame cfg s i).1 = some s1) :
    frame_attempts cfg s (i :: rest) =
      load_attempts (frame cfg s i).2 :: frame_attempts cfg s1 rest := by
  rw [frame_attempts, h]

theorem frame_attempts_cons_none (cfg : Config) (s : LoopState)
    (i : FrameInput) (rest : List FrameInput) (h : (frame cfg s i).1 = none) :
    frame_attempts cfg s (i :: rest) =
      load_attempts (frame cfg s i).2 :: List.replicate rest.length 0 := by
  rw [frame_attempts, h]

theorem load_attempts_append (a b : List Call) :
    load_attempts (a ++ b) = load_attempts a + load_attempts b := by
  simp [load_attempts, List.filter_append]

/-- The attempts of a run are the sum of the attempts of its frames. -/
theorem load_attempts_frames (cfg : Config) (s : LoopState) (fis : List FrameInput) :
    load_attempts (frames cfg s fis).2 = (frame_attempts cfg s fis).sum := by
  induction fis generalizing s with
  | nil => rfl
  | cons i rest ih =>
    rcases hf : (frame cfg s i).1 with _ | s1
    · rw [frames_cons_none cfg s i rest hf, frame_attempts_cons_none cfg s i rest hf]
      simp
    · rw [frames_cons_some cfg s s1 i rest hf,
        frame_attempts_cons_some cfg s s1 i rest hf, List.sum_cons]
      simp only [load_attempts_append, ih]

theorem frame_attempts_append (cfg : Config) (s : LoopState)
    (a b : List FrameInput) :
    frame_attempts cfg s (a ++ b) =
      frame_attempts cfg s a ++
        match (frames cfg s a).1 with
        | some s1 => frame_attempts cfg s1 b
        | none => List.replicate b.length 0 := by
  induction a generalizing s with
  | nil => rfl
  | cons i rest ih =>
    rcases hf : (frame cfg s i).1 with _ | s1
    · rw [List.cons_append, frame_attempts_cons_none cfg s i _ hf,
        frame_attempts_cons_none cfg s i _ hf, frames_cons_none cfg s i rest hf]
      simp only [List.length_append, List.replicate_add, List.cons_append]
    · rw [List.cons_append, frame_attempts_cons_some cfg s s1 i _ hf,
        frame_attempts_cons_some cfg s s1 i _ hf, frames_cons_some cfg s s1 i rest hf,
        ih, List.cons_append]

/-- With the timer disabled, a frame with the key pressed after a frame with
the key pressed makes no attempt, is completed and keeps `recently_reloaded`
set. -/
theorem frame_held (cfg : Config) (s : LoopState) (i : FrameInput)
    (hI : cfg.reload_interval_ms = 0) (hs : s.recently_reloaded ≠ 0)
    (hk : i.reload_key = GLFW_PRESS) :
    load_attempts (frame cfg s i).2 = 0 ∧
      ∃ s1, (frame cfg s i).1 = some s1 ∧ s1.recently_reloaded ≠ 0 := by
  have h0 : ¬ (schedule cfg s i).1 ≠ 0 := by
    rw [schedule_reload]
    rintro (⟨h1, _⟩ | ⟨_, h2⟩)
    · exact h1 hI
    · exact hs h2
  rw [frame_load_attempts, frame_state, if_neg h0, if_neg h0]
  refine ⟨rfl, _, rfl, ?_⟩
  simp [schedule, hk, hs]

/-- A frame with the key pressed after a frame with the key released makes
one attempt; it is completed exactly when `fopen` succeeds, and then
`recently_reloaded` is set. -/
theorem frame_press (cfg : Config) (s : LoopState) (i : FrameInput)
    (hs : s.recently_reloaded = 0) (hk : i.reload_key = GLFW_PRESS) :
    load_attempts (frame cfg s i).2 = 1 ∧
      ((frame cfg s i).1.isSome = true ↔ (i.fs cfg.filename).fopen_ok = true) ∧
      ∀ s1, (frame cfg s i).1 = some s1 → s1.recently_reloaded ≠ 0 := by
  obtain ⟨h1, _, h3⟩ := schedule_manual cfg s i ⟨hk, hs⟩
  have h0 : (schedule cfg s i).1 ≠ 0 := by rw [h1]; decide
  refine ⟨?_, ?_, ?_⟩
  · rw [frame_load_attempts, if_pos h0]
  · have hk2 := frame_killed_iff cfg s i
    rcases hf : (frame cfg s i).1 with _ | s1
    · have := hk2.1 hf
      simp [this.2]
    · cases hfo : (i.fs cfg.filename).fopen_ok
      · have := hk2.2 ⟨h0, hfo⟩
        rw [hf] at this
        simp at this
      · simp
  · intro s1 hs1
    rw [frame_state, if_pos h0, reload_block_state, h3] at hs1
    rcases hl : (load_fragment_file_to_program i.fs i.gl cfg.filename
      cfg.shader_program cfg.fragment_shader (schedule cfg s i).2.1).1 with _ | r
    · simp [hl] at hs1
    · simp only [hl, Option.map_some', Option.some.injEq] at hs1
      rw [← hs1]
      simp

/-- With the timer disabled, a frame with the key released makes no attempt,
is completed and clears `recently_reloaded`. -/
theorem frame_release (cfg : Config) (s : LoopState) (i : FrameInput)
    (hI : cfg.reload_interval_ms = 0) (hk : i.reload_key ≠ GLFW_PRESS) :
    load_attempts (frame cfg s i).2 = 0 ∧
      ∃ s1, (frame cfg s i).1 = some s1 ∧ s1.recently_reloaded = 0 := by
  have h0 : ¬ (schedule cfg s i).1 ≠ 0 := by
    rw [schedule_reload]
    rintro (⟨h1, _⟩ | ⟨h2, _⟩)
    · exact h1 hI
    · exact hk h2
  rw [frame_load_attempts, frame_state, if_neg h0, if_neg h0]
  refine ⟨rfl, _, rfl, ?_⟩
  simp [schedule, hk]

/-- With the timer disabled, frames with the key held make no attempt and
are all completed. -/
theorem frames_held (cfg : Config) (s : LoopState) (fis : List FrameInput)
    (hI : cfg.reload_interval_ms = 0) (hs : s.recently_reloaded ≠ 0)
    (hp : ∀ i ∈ fis, i.reload_key = GLFW_PRESS) :
    frame_attempts cfg s fis = List.replicate fis.length 0 ∧
      ∃ s1, (frames cfg s fis).1 = some s1 ∧ s1.recently_reloaded ≠ 0 := by
  induction fis generalizing s with
  | nil => exact ⟨rfl, s, rfl, hs⟩
  | cons i rest ih =>
    obtain ⟨h1, sa, hsa, h2⟩ := frame_held cfg s i hI hs (hp i (List.mem_cons_self _ _))
    obtain ⟨h3, s1, hs1, h4⟩ := ih sa h2
      (fun j hj => hp j (List.mem_cons_of_mem _ hj))
    refine ⟨?_, s1, ?_, h4⟩
    · rw [frame_attempts_cons_some cfg s sa i rest hsa, h1, h3]
      rfl
    · rw [frames_cons_some cfg s sa i rest hsa]
      exact hs1

/-- C4. With the automatic reload disabled and the R key not pressed in the
frame before, `N > 1` consecutive frames with the key pressed make one reload
attempt, in the first of them. After a frame with the key released the next
frame with the key pressed makes the next attempt, provided the process is
still running; it is, unless `fopen` failed in the first attempt. -/
theorem manual_reload_edge_triggered (cfg : Config) (s : LoopState)
    (fis : List FrameInput) (hI : cfg.reload_interval_ms = 0)
    (hs : s.recently_reloaded = 0)
    (hp : ∀ i ∈ fis, i.reload_key = GLFW_PRESS) (hN : 1 < fis.length) :
    frame_attempts cfg s fis = 1 :: List.replicate (fis.length - 1) 0 ∧
    load_attempts (frames cfg s fis).2 = 1 ∧
    (∀ r p : FrameInput, r.reload_key ≠ GLFW_PRESS → p.reload_key = GLFW_PRESS →
      frame_attempts cfg s (fis ++ [r, p]) =
        1 :: List.replicate (fis.length - 1) 0 ++
          [0, if (frames cfg s fis).1.isSome = true then 1 else 0]) ∧
    ((frames cfg s fis).1.isSome = true ↔
      ∀ i, fis.head? = some i → (i.fs cfg.filename).fopen_ok = true) := by
  cases fis with
  | nil => simp at hN
  | cons i rest =>
    obtain ⟨h1, hsome, h2⟩ := frame_press cfg s i hs (hp i (List.mem_cons_self _ _))
    have hA : frame_attempts cfg s (i :: rest) =
        1 :: List.replicate ((i :: rest).length - 1) 0 := by
      rcases hf : (frame cfg s i).1 with _ | sa
      · rw [frame_attempts_cons_none cfg s i rest hf, h1]
        simp
      · obtain ⟨h3, _⟩ := frames_held cfg sa rest hI (h2 sa hf)
          (fun j hj => hp j (List.mem_cons_of_mem _ hj))
        rw [frame_attempts_cons_some cfg s sa i rest hf, h1, h3]
        simp
    refine ⟨hA, ?_, ?_, ?_⟩
    · rw [load_attempts_frames, hA]
      simp
    · intro r p hr hpk
      rw [frame_attempts_append, hA]
      rcases hfr : (frames cfg s (i :: rest)).1 with _ | s1
      · simp
      · obtain ⟨h5, sb, hsb, h6⟩ := frame_release cfg s1 r hI hr
        obtain ⟨h7, _, _⟩ := frame_press cfg sb p h6 hpk
        dsimp only
        rcases hfp : (frame cfg sb p).1 with _ | sc
        · rw [frame_attempts_cons_some cfg s1 sb r [p] hsb,
            frame_attempts_cons_none cfg sb p [] hfp, h5, h7]
          simp
        · rw [frame_attempts_cons_some cfg s1 sb r [p] hsb,
            frame_attempts_cons_some cfg sb sc p [] hfp, h5, h7]
          simp [frame_attempts]
    · simp only [List.head?_cons, Option.some.injEq, forall_eq']
      rw [← hsome]
      rcases hf : (frame cfg s i).1 with _ | sa
      · rw [frames_cons_none cfg s i rest hf]
      · obtain ⟨_, s1, hs1, _⟩ := frames_held cfg sa rest hI (h2 sa hf)
          (fun j hj => hp j (List.mem_cons_of_mem _ hj))
        rw [frames_cons_some cfg s sa i rest hf]
        simp [hs1]

/-- C4, at a sample input: three frames with the key held. -/
theorem manual_reload_edge_triggered_witness :
    cfg_manual.reload_interval_ms = 0 ∧ state0.recently_reloaded = 0 ∧
    frame_attempts cfg_manual state0 [frame_pressed, frame_pressed, frame_pressed] =
      [1, 0, 0] :=
  ⟨rfl, rfl,
   (manual_reload_edge_triggered cfg_manual state0
      [frame_pressed, frame_pressed, frame_pressed] rfl rfl
      (by intro i hi; simp at hi; rw [hi]; rfl) (by decide)).1⟩

/-! ## Claims about `main` -/

theorem option_switch_verbose (atoi : String → Int) (o : Options)
    (g : GetoptResult) : (option_switch atoi o g).verbose = o.verbose := by
  simp only [option_switch]
  split_ifs <;> first | rfl | (cases g.optarg <;> rfl)

theorem option_switch_arg_error (atoi : String → Int) (o : Options)
    (g : GetoptResult) (h : o.arg_error = 1) :
    (option_switch atoi o g).arg_error = 1 := by
  simp only [option_switch]
  split_ifs <;> first | exact h | rfl | (cases g.optarg <;> exact h)

theorem option_switch_v (atoi : String → Int) (o : Options)
    (g : GetoptResult) (h : g.c = 'v') :
    (option_switch atoi o g).arg_error = 1 := by
  simp [option_switch, h]

theorem option_switch_interval (atoi : String → Int) (o : Options)
    (g : GetoptResult) (h : 0 ≤ o.reload_interval_ms) :
    0 ≤ (option_switch atoi o g).reload_interval_ms := by
  simp only [option_switch]
  split_ifs
  · exact h
  · cases g.optarg with
    | none => exact h
    | some a =>
      show 0 ≤ (if atoi a < 0 then 0 else atoi a)
      split_ifs <;> omega
  all_goals first | exact h | (cases g.optarg <;> exact h)

theorem foldl_option_switch_verbose (atoi : String → Int)
    (gs : List GetoptResult) (o : Options) :
    (gs.foldl (option_switch atoi) o).verbose = o.verbose := by
  induction gs generalizing o with
  | nil => rfl
  | cons g rest ih => rw [List.foldl_cons, ih, option_switch_verbose]

theorem foldl_option_switch_arg_error (atoi : String → Int)
    (gs : List GetoptResult) (o : Options) (h : o.arg_error = 1) :
    (gs.foldl (option_switch atoi) o).arg_error = 1 := by
  induction gs generalizing o with
  | nil => exact h
  | cons g rest ih =>
    rw [List.foldl_cons]
    exact ih _ (option_switch_arg_error atoi o g h)

theorem foldl_option_switch_v (atoi : String → Int)
    (gs : List GetoptResult) (o : Options) (h : ∃ g ∈ gs, g.c = 'v') :
    (gs.foldl (option_switch atoi) o).arg_error = 1 := by
  induction gs generalizing o with
  | nil => simp at h
  | cons g rest ih =>
    rw [List.foldl_cons]
    obtain ⟨g1, hg1, hv⟩ := h
    rcases List.mem_cons.mp hg1 with rfl | hmem
    · exact foldl_option_switch_arg_error atoi rest _ (option_switch_v atoi o g1 hv)
    · exact ih _ ⟨g1, hmem, hv⟩

theorem foldl_option_switch_interval (atoi : String → Int)
    (gs : List GetoptResult) (o : Options) (h : 0 ≤ o.reload_interval_ms) :
    0 ≤ (gs.foldl (option_switch atoi) o).reload_interval_ms := by
  induction gs generalizing o with
  | nil => exact h
  | cons g rest ih =>
    rw [List.foldl_cons]
    exact ih _ (option_switch_interval atoi o g h)

/-- Whatever the options, the loop leaves `verbose` at `0`; an answer `'v'`
of `getopt` sets `arg_error`. -/
theorem parse_options_verbose (atoi : String → Int) (gs : List GetoptResult) :
    (parse_options atoi gs).verbose = 0 ∧
    ((∃ g ∈ gs, g.c = 'v') → (parse_options atoi gs).arg_error = 1) :=
  ⟨foldl_option_switch_verbose atoi gs Options.initial,
   foldl_option_switch_v atoi gs Options.initial⟩

/-- The interval the option loop leaves is never negative. -/
theorem parse_options_interval_nonneg (atoi : String → Int)
    (gs : List GetoptResult) : 0 ≤ (parse_options atoi gs).reload_interval_ms :=
  foldl_option_switch_interval atoi gs Options.initial (by decide)

/-- C8. For the command line `-v -i shader.frag`, on which `getopt` answers
`'v'` and then `'i'` with the file name, the option loop ends with
`verbose = 0` and `arg_error = 1`, and `main` leaves through
`exit(EXIT_FAILURE)` before any window is created; the same command line
without `-v` leaves `arg_error` at `0`. -/
theorem verbose_option_rejected :
    (parse_options (fun _ => 0) [⟨'i', some "shader.frag"⟩]).arg_error = 0 ∧
    (parse_options (fun _ => 0)
      [⟨'v', none⟩, ⟨'i', some "shader.frag"⟩]).verbose = 0 ∧
    (parse_options (fun _ => 0)
      [⟨'v', none⟩, ⟨'i', some "shader.frag"⟩]).arg_error = 1 ∧
    (parse_options (fun _ => 0)
      [⟨'v', none⟩, ⟨'i', some "shader.frag"⟩]).filename = some "shader.frag" ∧
    main 4 (fun _ => 0) [⟨'v', none⟩, ⟨'i', some "shader.frag"⟩] startup_good [] =
      (Outcome.exited EXIT_FAILURE, []) := by
  have h : parse_options (fun _ => 0) [⟨'v', none⟩, ⟨'i', some "shader.frag"⟩] =
      { Options.initial with arg_error := 1, filename := some "shader.frag" } := by
    simp [parse_options, option_switch]
  refine ⟨?_, ?_, ?_, ?_, ?_⟩
  · simp [parse_options, option_switch, Options.initial]
  · rw [h]; rfl
  · rw [h]
  · rw [h]
  · simp [main, h]

/-- The result a frame leaves is the value its reload call returned, or the
result it found when it made no attempt. -/
theorem frame_result (cfg : Config) (s : LoopState) (i : FrameInput) :
    (frame cfg s i).1.map LoopState.result =
      if (schedule cfg s i).1 ≠ 0 then
        (load_fragment_file_to_program i.fs i.gl cfg.filename cfg.shader_program
          cfg.fragment_shader (schedule cfg s i).2.1).1
      else some s.result := by
  rw [frame_state]
  split_ifs
  · rw [reload_block_state, Option.map_map]
    rcases (load_fragment_file_to_program i.fs i.gl cfg.filename cfg.shader_program
      cfg.fragment_shader (schedule cfg s i).2.1).1 with _ | r <;> rfl
  · rfl

/-- After a completed run of frames, `result` is the value of the last reload
call of the run, or the value before the run when the run made none. -/
theorem frames_result (cfg : Config) (s s1 : LoopState) (fis : List FrameInput)
    (h : (frames cfg s fis).1 = some s1) :
    s1.result = (last_load_result (frames cfg s fis).2).getD s.result := by
  induction fis generalizing s with
  | nil =>
    simp only [frames, Option.some.injEq] at h
    rw [← h]
    rfl
  | cons i rest ih =>
    rcases hf : (frame cfg s i).1 with _ | sa
    · rw [frames_cons_none cfg s i rest hf] at h
      simp at h
    · rw [frames_cons_some cfg s sa i rest hf] at h ⊢
      simp only at h ⊢
      have hi := ih sa h
      have hr := frame_result cfg s i
      rw [hf] at hr
      simp only [Option.map_some'] at hr
      cases hl : last_load_result (frames cfg sa rest).2 with
      | some r =>
        rw [last_load_result_append_some _ _ r hl, hi, hl]
        rfl
      | none =>
        rw [last_load_result_append_none _ _ hl, frame_last_load_result, hi, hl]
        by_cases h0 : (schedule cfg s i).1 ≠ 0
        · rw [if_pos h0] at hr ⊢
          rw [← hr]
          rfl
        · rw [if_neg h0] at hr ⊢
          simp only [Option.some.injEq] at hr
          simp [hr]

/-- A completed run of frames keeps `result` among `1` and `-1`. -/
theorem frames_result_cases (cfg : Config) (s s1 : LoopState)
    (fis : List FrameInput) (h : (frames cfg s fis).1 = some s1)
    (hs : s.result = 1 ∨ s.result = -1) :
    s1.result = 1 ∨ s1.result = -1 := by
  induction fis generalizing s with
  | nil =>
    simp only [frames, Option.some.injEq] at h
    rw [← h]
    exact hs
  | cons i rest ih =>
    rcases hf : (frame cfg s i).1 with _ | sa
    · rw [frames_cons_none cfg s i rest hf] at h
      simp at h
    · rw [frames_cons_some cfg s sa i rest hf] at h
      apply ih sa h
      have hr := frame_result cfg s i
      rw [hf] at hr
      simp only [Option.map_some'] at hr
      by_cases h0 : (schedule cfg s i).1 ≠ 0
      · rw [if_pos h0] at hr
        exact load_fragment_result_cases _ _ _ _ _ _ _ hr.symm
      · rw [if_neg h0] at hr
        simp only [Option.some.injEq] at hr
        rw [hr]
        exact hs

/-- A run of frames is completed when `fopen` succeeds in each of them. -/
theorem frames_completed (cfg : Config) (s : LoopState) (fis : List FrameInput)
    (h : ∀ i ∈ fis, (i.fs cfg.filename).fopen_ok = true) :
    ∃ s1, (frames cfg s fis).1 = some s1 := by
  induction fis generalizing s with
  | nil => exact ⟨s, rfl⟩
  | cons i rest ih =>
    rcases hf : (frame cfg s i).1 with _ | sa
    · have hk := (frame_killed_iff cfg s i).1 hf
      have := h i (List.mem_cons_self _ _)
      rw [hk.2] at this
      simp at this
    · obtain ⟨s1, hs1⟩ := ih sa (fun j hj => h j (List.mem_cons_of_mem _ hj))
      exact ⟨s1, by rw [frames_cons_some cfg s sa i rest hf]; exact hs1⟩

/-- C10. Once the command line is accepted and start-up has succeeded, `main`
either returns or has the process killed inside `load_file`, the latter only
when some `fopen` fails. The value it returns is that of the most recent call
of `load_fragment_file_to_program` (the first load when the loop reloaded
nothing); that value is `1` or `-1`, so it is not `0` and neither is the exit
status, its low eight bits. When `glfwInit`, the window creation or the
compilation of the built-in vertex shader fails, `main` returns `0` without
having called `load_fragment_file_to_program`. -/
theorem main_return_value (argc : Int) (atoi : String → Int)
    (gs : List GetoptResult) (st : Startup) (fis : List FrameInput)
    (filename : String) (hargc : 2 ≤ argc)
    (herr : (parse_options atoi gs).arg_error = 0)
    (hfile : (parse_options atoi gs).filename = some filename) :
    (st.glfwInit ≠ 0 ∧ st.window = true ∧ st.glew_condition = false ∧
        st.vertex_gl.compile_status ≠ GL_FALSE →
      ((main argc atoi gs st fis).1 = Outcome.killed ∨
        ∃ r : Int, (main argc atoi gs st fis).1 = Outcome.returned r ∧
          last_load_result (main argc atoi gs st fis).2 = some r ∧
          (r = 1 ∨ r = -1) ∧ r ≠ 0 ∧ r % 256 ≠ 0) ∧
      ((st.fs filename).fopen_ok = true ∧
          (∀ i ∈ fis, (i.fs filename).fopen_ok = true) →
        ∃ r : Int, (main argc atoi gs st fis).1 = Outcome.returned r ∧
          last_load_result (main argc atoi gs st fis).2 = some r ∧
          (r = 1 ∨ r = -1) ∧ r ≠ 0 ∧ r % 256 ≠ 0)) ∧
    (st.glfwInit = 0 ∨ st.window = false ∨
        st.vertex_gl.compile_status = GL_FALSE →
      (main argc atoi gs st fis).1 = Outcome.returned 0 ∧
        last_load_result (main argc atoi gs st fis).2 = none) := by
  have h1 : ¬ argc < 2 := by omega
  constructor
  · rintro ⟨hg, hw, he, hc⟩
    have hcomp : ¬ (compile_shader st.vertex_gl st.vertex_shader vertex_shader_source
        vertex_shader_source.length 1).1 < 0 := by
      rw [compile_shader_result, if_neg hc]; decide
    have hm0 := compile_shader_isMarker st.vertex_gl st.vertex_shader
      vertex_shader_source vertex_shader_source.length 1
    have hm1 := load_fragment_isMarker st.fs st.gl filename st.shader_program
      st.fragment_shader 1
    have hm2 := shader_uniforms_locate_isMarker st.gl st.shader_program st.uniforms 1
    have hk0 := load_fragment_killed_iff st.fs st.gl filename st.shader_program
      st.fragment_shader 1
    have hr0 := load_fragment_result_cases st.fs st.gl filename st.shader_program
      st.fragment_shader 1
    -- the three ways the run can go
    have hmain : (main argc atoi gs st fis).1 = Outcome.killed ∧
          ((st.fs filename).fopen_ok = false ∨
            ∃ i ∈ fis, (i.fs filename).fopen_ok = false) ∨
        ∃ r : Int, (main argc atoi gs st fis).1 = Outcome.returned r ∧
          last_load_result (main argc atoi gs st fis).2 = some r ∧
          (r = 1 ∨ r = -1) := by
      rcases hl : load_fragment_file_to_program st.fs st.gl filename
          st.shader_program st.fragment_shader 1 with ⟨_ | r0, c1⟩
      · left
        rw [hl] at hk0
        refine ⟨?_, Or.inl (hk0.1 rfl)⟩
        simp only [main, if_neg h1, herr, hfile, hw, he, hl]
        simp [hg, hcomp]
      · rw [hl] at hm1 hr0
        dsimp only at hm1
        have hr0 := hr0 r0 rfl
        rcases hfr : frames ⟨(parse_options atoi gs).verbose,
            (parse_options atoi gs).reload_interval_ms, filename, st.shader_program,
            st.fragment_shader, st.CLOCKS_PER_SEC⟩
            ⟨r0, (shader_uniforms_locate st.gl st.shader_program st.uniforms 1).2.1,
              0, st.clock⟩ fis with ⟨_ | s1, c5⟩
        · left
          constructor
          · simp only [main, if_neg h1, herr, hfile, hw, he, hl]
            simp [hg, hcomp, hfr]
          · right
            by_contra hno
            push_neg at hno
            have hall : ∀ i ∈ fis, (i.fs filename).fopen_ok = true := by
              intro i hi
              have := hno i hi
              simpa using this
            obtain ⟨s1, hs1⟩ := frames_completed ⟨(parse_options atoi gs).verbose,
              (parse_options atoi gs).reload_interval_ms, filename, st.shader_program,
              st.fragment_shader, st.CLOCKS_PER_SEC⟩
              ⟨r0, (shader_uniforms_locate st.gl st.shader_program st.uniforms 1).2.1,
                0, st.clock⟩ fis hall
            rw [hfr] at hs1
            simp at hs1
        · right
          have hfr1 : (frames ⟨(parse_options atoi gs).verbose,
            (parse_options atoi gs).reload_interval_ms, filename, st.shader_program,
            st.fragment_shader, st.CLOCKS_PER_SEC⟩
            ⟨r0, (shader_uniforms_locate st.gl st.shader_program st.uniforms 1).2.1,
              0, st.clock⟩ fis).1 = some s1 := by rw [hfr]
          have hres := frames_result _ _ _ _ hfr1
          have hcases := frames_result_cases _ _ _ _ hfr1 hr0
          rw [hfr] at hres
          dsimp only at hres
          refine ⟨s1.result, ?_, ?_, hcases⟩
          · simp only [main, if_neg h1, herr, hfile, hw, he, hl]
            simp [hg, hcomp, hfr]
          · have htr : (main argc atoi gs st fis).2 =
                (compile_shader st.vertex_gl st.vertex_shader vertex_shader_source
                    vertex_shader_source.length 1).2 ++
                  [Call.glAttachShader st.shader_program st.vertex_shader] ++
                  ([Call.enter_load_fragment_file_to_program filename 1] ++ c1 ++
                    [Call.leave_load_fragment_file_to_program r0]) ++
                  (if r0 < 0 then
                    [Call.fprintf Stream.stdout "Failed to load fragment shader.\n"]
                   else []) ++
                  [Call.glUseProgram st.shader_program] ++
                  ([Call.enter_shader_uniforms_locate st.shader_program 1] ++
                    (shader_uniforms_locate st.gl st.shader_program st.uniforms 1).2.2) ++
                  c5 := by
              simp only [main, if_neg h1, herr, hfile, hw, he, hl]
              simp [hg, hcomp, hfr]
            rw [htr]
            cases h : last_load_result c5 with
            | some r =>
              rw [last_load_result_append_some _ _ r h, hres, h]
              rfl
            | none =>
              rw [last_load_result_append_none _ _ h, hres, h,
                ← last_load_result_filter_isMarker]
              by_cases hneg : r0 < 0 <;>
                simp [hneg, List.filter_append, hm0, hm1, hm2, Call.isMarker,
                  last_load_result]
    have hP : ∀ r : Int, (r = 1 ∨ r = -1) → r ≠ 0 ∧ r % 256 ≠ 0 := by
      rintro r (h | h) <;> rw [h] <;> decide
    constructor
    · rcases hmain with ⟨hk, _⟩ | ⟨r, hr, hl, hc1⟩
      · exact Or.inl hk
      · exact Or.inr ⟨r, hr, hl, hc1, hP r hc1⟩
    · rintro ⟨hf0, hfall⟩
      rcases hmain with ⟨_, hk | ⟨i, hi, hk⟩⟩ | ⟨r, hr, hl, hc1⟩
      · rw [hf0] at hk
        simp at hk
      · rw [hfall i hi] at hk
        simp at hk
      · exact ⟨r, hr, hl, hc1, hP r hc1⟩
  · intro h
    by_cases hg : st.glfwInit = 0
    · simp [main, h1, herr, hfile, hg, last_load_result]
    · by_cases hw : st.window = false
      · simp [main, h1, herr, hfile, hg, hw, last_load_result]
      · by_cases he : st.glew_condition = true
        · simp [main, h1, herr, hfile, hg, hw, he, last_load_result]
        · have hc : st.vertex_gl.compile_status = GL_FALSE := by tauto
          have hcomp : (compile_shader st.vertex_gl st.vertex_shader
              vertex_shader_source vertex_shader_source.length 1).1 < 0 := by
            rw [compile_shader_result, if_pos hc]; decide
          have hm0 := compile_shader_isMarker st.vertex_gl st.vertex_shader
            vertex_shader_source vertex_shader_source.length 1
          simp only [main, if_neg h1, herr, hfile]
          simp only [hg, hw, he, hcomp]
          simp only [ne_eq, not_true_eq_false, if_false, Bool.not_true,
            Bool.false_eq_true, if_true, true_and]
          rw [← last_load_result_filter_isMarker]
          simp [List.filter_append, hm0, Call.isMarker, last_load_result]

/-- C10, at sample inputs: the command line `-i shader.frag` with a
successful start-up and one frame, and the same with `glfwInit` failing. -/
theorem main_return_value_witness :
    (∃ r : Int,
      (main 3 (fun _ => 0) [⟨'i', some "shader.frag"⟩] startup_good
        [frame_pressed]).1 = Outcome.returned r ∧
      last_load_result (main 3 (fun _ => 0) [⟨'i', some "shader.frag"⟩] startup_good
        [frame_pressed]).2 = some r ∧
      (r = 1 ∨ r = -1) ∧ r ≠ 0 ∧ r % 256 ≠ 0) ∧
    (main 3 (fun _ => 0) [⟨'i', some "shader.frag"⟩] startup_no_glfw
      [frame_pressed]).1 = Outcome.returned 0 :=
  ⟨((main_return_value 3 (fun _ => 0) [⟨'i', some "shader.frag"⟩] startup_good
      [frame_pressed] "shader.frag" (by decide)
      (by simp [parse_options, option_switch, Options.initial])
      (by simp [parse_options, option_switch, Options.initial])).1
      ⟨by decide, rfl, rfl, by decide⟩).2
      ⟨rfl, by intro i hi; simp at hi; rw [hi]; rfl⟩,
   ((main_return_value 3 (fun _ => 0) [⟨'i', some "shader.frag"⟩] startup_no_glfw
      [frame_pressed] "shader.frag" (by decide)
      (by simp [parse_options, option_switch, Options.initial])
      (by simp [parse_options, option_switch, Options.initial])).2
      (Or.inl rfl)).1⟩

/-- With a shader file that cannot be opened, `main` ends with the process
killed at the first load. -/
theorem main_killed_on_missing_file :
    (main 3 (fun _ => 0) [⟨'i', some "shader.frag"⟩]
      { startup_good with fs := fs_missing } []).1 = Outcome.killed := by
  simp [main, parse_options, option_switch, Options.initial, startup_good,
    load_fragment_file_to_program, load_file, fs_missing, compile_shader, gl_good,
    GL_FALSE]

end GlslEditor
